import Mathlib

/-!
Verification development for the CubeSat CG calculator
(`src/satelite_gui.py`).  The algorithmic core of the program is the
method `_executar_calculo` together with its helpers
`verifica_distancias_minmax` and `calcula_cg`.  The code works on four
components (index 0 = PL, 1 = EPS, 2 = OBC, 3 = RAD); PL and RAD are
fixed, EPS and OBC are movable.  All real-valued quantities of the
program (masses, thicknesses, heights, distances, the CG) are embedded
as rationals; Python `int(x)` (truncation toward zero) is embedded as
`ratTrunc`.  The `try/except` guard around the CG division, whose only
possible failure is division by a zero total mass, is embedded as an
explicit zero test returning `none`.
-/

namespace Satelite

/-- Truncation toward zero, the semantics of Python `int(x)` applied to
a real value: the numerator divided by the (positive) denominator with
the remainder discarded. -/
def ratTrunc (q : ℚ) : ℤ := Int.tdiv q.num (q.den : ℤ)

/-- The input configuration consumed by `_executar_calculo`: the four
component masses and thicknesses, the three external contributions
(solar panel, antenna, chassis), the enclosure height, the target CG
range and the two pairwise distance matrices (symmetric, as built by
`_build_distance_matrix`). -/
structure Scenario where
  masses : Fin 4 → ℚ
  thicknesses : Fin 4 → ℚ
  solar_panel_mass : ℚ
  solar_panel_height : ℚ
  antenna_mass : ℚ
  antenna_height : ℚ
  chassis_mass : ℚ
  chassis_height : ℚ
  total_height : ℚ
  target_range : ℚ × ℚ
  min_distance_matrix : Fin 4 → Fin 4 → ℚ
  max_distance_matrix : Fin 4 → Fin 4 → ℚ

/-- The `heights` array right after its initialisation in
`_executar_calculo`: `np.zeros`, then PL fixed at `thicknesses[0]/2`
and RAD fixed at `total_height - thicknesses[3]/2`. -/
def initialHeights (s : Scenario) : Fin 4 → ℚ := fun i =>
  if i = 0 then s.thicknesses 0 / 2
  else if i = 3 then s.total_height - s.thicknesses 3 / 2
  else 0

/-- The lower/higher selection of `verifica_distancias_minmax`: the
component whose centre height is smaller or equal is `lower` (on a tie
the first component of the pair is `lower`). -/
def lowerHigher (heights : Fin 4 → ℚ) (i j : Fin 4) : Fin 4 × Fin 4 :=
  if heights i ≤ heights j then (i, j) else (j, i)

/-- The signed edge gap `dist_entre_bordas` of
`verifica_distancias_minmax`: lower edge of the higher component minus
upper edge of the lower component. -/
def dist_entre_bordas (heights thicknesses : Fin 4 → ℚ) (i j : Fin 4) : ℚ :=
  let lh := lowerHigher heights i j
  (heights lh.2 - thicknesses lh.2 / 2) - (heights lh.1 + thicknesses lh.1 / 2)

/-- One pair check of `verifica_distancias_minmax`: the pair passes
unless the gap is below `min_distance_matrix[lower][higher]` or above
`max_distance_matrix[lower][higher]`. -/
def pairOk (heights thicknesses : Fin 4 → ℚ)
    (min_distance_matrix max_distance_matrix : Fin 4 → Fin 4 → ℚ)
    (i j : Fin 4) : Bool :=
  let lh := lowerHigher heights i j
  let g := dist_entre_bordas heights thicknesses i j
  !(decide (g < min_distance_matrix lh.1 lh.2)) &&
    !(decide (g > max_distance_matrix lh.1 lh.2))

/-- The ordered pairs `(i, j)` with `i < j` visited by the double loop
of `verifica_distancias_minmax` over the four components. -/
def pairList : List (Fin 4 × Fin 4) :=
  [(0, 1), (0, 2), (0, 3), (1, 2), (1, 3), (2, 3)]

/-- `verifica_distancias_minmax`: every unordered pair of components
must pass its min/max distance check. -/
def verifica_distancias_minmax (heights thicknesses : Fin 4 → ℚ)
    (min_distance_matrix max_distance_matrix : Fin 4 → Fin 4 → ℚ) : Bool :=
  pairList.all fun ij =>
    pairOk heights thicknesses min_distance_matrix max_distance_matrix ij.1 ij.2

/-- `calcula_cg`: the mass-weighted average of the component centre
heights and the three external contributions.  The division is guarded
against a zero total mass (in the source, by the `try/except` returning
`None`, the division by zero being the only failing operation). -/
def calcula_cg (heights masses : Fin 4 → ℚ)
    (solar_panel_height solar_panel_mass antenna_height antenna_mass
      chassis_height chassis_mass : ℚ) : Option ℚ :=
  let total_mass := (masses 0 + masses 1 + masses 2 + masses 3)
    + solar_panel_mass + antenna_mass + chassis_mass
  let soma_momentos :=
    (heights 0 * masses 0 + heights 1 * masses 1
      + heights 2 * masses 2 + heights 3 * masses 3)
    + solar_panel_height * solar_panel_mass
    + antenna_height * antenna_mass
    + chassis_height * chassis_mass
  if total_mass = 0 then none else some (soma_momentos / total_mass)

/-- The total mass of a scenario: the four component masses plus the
three external masses. -/
def totalMass (s : Scenario) : ℚ :=
  (s.masses 0 + s.masses 1 + s.masses 2 + s.masses 3)
    + s.solar_panel_mass + s.antenna_mass + s.chassis_mass

/-- `calcula_cg` applied to a scenario and a heights assignment, with
the argument wiring of the call site in `_executar_calculo`. -/
def cgOf (s : Scenario) (heights : Fin 4 → ℚ) : Option ℚ :=
  calcula_cg heights s.masses
    s.solar_panel_height s.solar_panel_mass
    s.antenna_height s.antenna_mass
    s.chassis_height s.chassis_mass

/-- The two tuples produced by `itertools.permutations([1, 2])`, in
order. -/
def perms : List (Fin 4 × Fin 4) := [(1, 2), (2, 1)]

/-- The list of integers produced by Python `range(lo, hi + 1)`. -/
def intsFromTo (lo hi : ℤ) : List ℤ :=
  (List.range (hi + 1 - lo).toNat).map fun k => lo + k

/-- `min_altura_1`: lower bound of the first movable component of a
permutation, `int(thicknesses[perm[0]] / 2)`. -/
def min_altura_1 (s : Scenario) (p : Fin 4 × Fin 4) : ℤ :=
  ratTrunc (s.thicknesses p.1 / 2)

/-- The upper bound `int(heights[3] - thicknesses[3]/2 - thicknesses[i]/2)`
used for both movable components (as `max_altura_1` and
`max_altura_2`); `heights[3]` is the fixed RAD height. -/
def max_altura (s : Scenario) (i : Fin 4) : ℤ :=
  ratTrunc (initialHeights s 3 - s.thicknesses 3 / 2 - s.thicknesses i / 2)

/-- `min_altura_2`: lower bound of the second movable component,
`int(height1 + thicknesses[perm[0]]/2 + thicknesses[perm[1]]/2 +
min_distance_matrix[perm[0]][perm[1]] - thicknesses[perm[1]]/2)`,
transcribed term by term from the source. -/
def min_altura_2 (s : Scenario) (p : Fin 4 × Fin 4) (height1 : ℤ) : ℤ :=
  ratTrunc ((height1 : ℚ)
    + s.thicknesses p.1 / 2
    + s.thicknesses p.2 / 2
    + s.min_distance_matrix p.1 p.2
    - s.thicknesses p.2 / 2)

/-- The heights array as it stands at the innermost loop body: the two
fixed components keep their initial heights, `perm[0]` holds `height1`
and `perm[1]` holds `height2`. -/
def assignHeights (s : Scenario) (p : Fin 4 × Fin 4) (height1 height2 : ℤ) :
    Fin 4 → ℚ := fun i =>
  if i = p.2 then (height2 : ℚ)
  else if i = p.1 then (height1 : ℚ)
  else initialHeights s i

/-- Every candidate heights assignment visited by the nested loops of
`_executar_calculo`, in the order the loops visit them: permutations of
the movable components, then the two nested integer height loops. -/
def candList (s : Scenario) : List (Fin 4 → ℚ) :=
  perms.flatMap fun p =>
    (intsFromTo (min_altura_1 s p) (max_altura s p.1)).flatMap fun h1 =>
      (intsFromTo (min_altura_2 s p h1) (max_altura s p.2)).map fun h2 =>
        assignHeights s p h1 h2

/-- The record kept for the best candidate seen so far (`best_heights`
and `best_cg`), and the payload of a successful search. -/
structure Best where
  heights : Fin 4 → ℚ
  cg : ℚ

/-- The strict-improvement test `cg_val < best_cg`; `best_cg` starts at
infinity, so with no incumbent every value improves. -/
def improves (acc : Option Best) (v : ℚ) : Bool :=
  match acc with
  | none => true
  | some r => decide (v < r.cg)

/-- The innermost loop body of `_executar_calculo` for one candidate:
skip it unless the distance check passes, skip it when the CG is
`None`, and adopt it when the CG is inside the target range and
strictly below the incumbent. -/
def step (s : Scenario) (acc : Option Best) (heights : Fin 4 → ℚ) :
    Option Best :=
  if verifica_distancias_minmax heights s.thicknesses
      s.min_distance_matrix s.max_distance_matrix then
    match cgOf s heights with
    | none => acc
    | some v =>
      if decide (s.target_range.1 ≤ v) && decide (v ≤ s.target_range.2)
          && improves acc v then
        some ⟨heights, v⟩
      else acc
  else acc

/-- The whole search of `_executar_calculo`: fold the loop body over
every candidate, starting with no incumbent.  `some` is the
`best_heights`/`best_cg` result printed as the best configuration,
`none` is the no-configuration outcome. -/
def search (s : Scenario) : Option Best :=
  (candList s).foldl (step s) none

/-- The qualification test of the loop body as a Boolean predicate on a
candidate: the distance check passes, the CG is defined and it lies in
the target range. -/
def qualB (s : Scenario) (heights : Fin 4 → ℚ) : Bool :=
  verifica_distancias_minmax heights s.thicknesses
      s.min_distance_matrix s.max_distance_matrix &&
    match cgOf s heights with
    | none => false
    | some v =>
      decide (s.target_range.1 ≤ v) && decide (v ≤ s.target_range.2)

/-! Basic facts about `ratTrunc`, `lowerHigher`, `pairOk` and
`verifica_distancias_minmax`. -/

theorem ratTrunc_eq_floor_or_ceil (q : ℚ) :
    ratTrunc q = if 0 ≤ q then ⌊q⌋ else ⌈q⌉ := by
  unfold ratTrunc
  split
  · next h =>
    rw [Rat.floor_def]
    exact Int.tdiv_eq_ediv (Rat.num_nonneg.mpr h) (Int.natCast_nonneg _)
  · next h =>
    have hcq : ⌈q⌉ = -⌊-q⌋ := by
      conv_lhs => rw [← neg_neg q]
      rw [Int.ceil_neg]
    rw [hcq, Rat.floor_def, Rat.neg_num, Rat.neg_den]
    have hn : 0 ≤ -q.num := by
      have hq := @Rat.num_nonneg (-q)
      rw [Rat.neg_num] at hq
      exact hq.mpr (by push_neg at h; exact le_of_lt (neg_pos.mpr h))
    rw [← Int.tdiv_eq_ediv hn (Int.natCast_nonneg _), Int.neg_tdiv, neg_neg]

theorem lowerHigher_cases (heights : Fin 4 → ℚ) (i j : Fin 4) :
    lowerHigher heights i j = (i, j) ∨ lowerHigher heights i j = (j, i) := by
  unfold lowerHigher
  split
  · exact Or.inl rfl
  · exact Or.inr rfl

theorem lowerHigher_congr {heights heights' : Fin 4 → ℚ} {i j : Fin 4}
    (h1 : heights i = heights' i) (h2 : heights j = heights' j) :
    lowerHigher heights i j = lowerHigher heights' i j := by
  unfold lowerHigher
  rw [h1, h2]

theorem dist_entre_bordas_congr {heights heights' thk : Fin 4 → ℚ} {i j : Fin 4}
    (h1 : heights i = heights' i) (h2 : heights j = heights' j) :
    dist_entre_bordas heights thk i j = dist_entre_bordas heights' thk i j := by
  unfold dist_entre_bordas
  rw [lowerHigher_congr h1 h2]
  rcases lowerHigher_cases heights' i j with hl | hl <;> rw [hl] <;>
    simp only [h1, h2]

theorem pairOk_congr {heights heights' thk : Fin 4 → ℚ}
    {m M : Fin 4 → Fin 4 → ℚ} {i j : Fin 4}
    (h1 : heights i = heights' i) (h2 : heights j = heights' j) :
    pairOk heights thk m M i j = pairOk heights' thk m M i j := by
  unfold pairOk
  rw [lowerHigher_congr h1 h2, dist_entre_bordas_congr h1 h2]

theorem pairOk_eq_true_iff {heights thk : Fin 4 → ℚ}
    {m M : Fin 4 → Fin 4 → ℚ} {i j : Fin 4} :
    pairOk heights thk m M i j = true ↔
      m (lowerHigher heights i j).1 (lowerHigher heights i j).2 ≤
          dist_entre_bordas heights thk i j ∧
        dist_entre_bordas heights thk i j ≤
          M (lowerHigher heights i j).1 (lowerHigher heights i j).2 := by
  unfold pairOk
  simp [not_lt, and_comm]

theorem verifica_eq_true_iff {heights thk : Fin 4 → ℚ}
    {m M : Fin 4 → Fin 4 → ℚ} :
    verifica_distancias_minmax heights thk m M = true ↔
      ∀ ij ∈ pairList, pairOk heights thk m M ij.1 ij.2 = true := by
  unfold verifica_distancias_minmax
  rw [List.all_eq_true]

theorem mem_pairList_of_lt {i j : Fin 4} (h : i < j) : (i, j) ∈ pairList := by
  fin_cases i <;> fin_cases j <;> simp_all [pairList]

/-! Facts about one step of the search loop. -/

theorem step_of_cg_none {s : Scenario} {acc : Option Best}
    {heights : Fin 4 → ℚ} (h : cgOf s heights = none) :
    step s acc heights = acc := by
  unfold step
  rw [h]
  split <;> rfl

theorem step_of_not_verifica {s : Scenario} {acc : Option Best}
    {heights : Fin 4 → ℚ}
    (h : verifica_distancias_minmax heights s.thicknesses
      s.min_distance_matrix s.max_distance_matrix = false) :
    step s acc heights = acc := by
  unfold step
  rw [h]
  rfl

theorem step_qualified (s : Scenario) (acc : Option Best)
    (heights : Fin 4 → ℚ) {v : ℚ}
    (hf : verifica_distancias_minmax heights s.thicknesses
      s.min_distance_matrix s.max_distance_matrix = true)
    (hcg : cgOf s heights = some v)
    (h1 : s.target_range.1 ≤ v) (h2 : v ≤ s.target_range.2) :
    step s acc heights = some ⟨heights, v⟩ ∨
      ∃ r₀, acc = some r₀ ∧ r₀.cg ≤ v ∧ step s acc heights = acc := by
  cases acc with
  | none =>
    left
    simp [step, hf, hcg, h1, h2, improves]
  | some r₀ =>
    by_cases hlt : v < r₀.cg
    · left
      simp [step, hf, hcg, h1, h2, improves, hlt]
    · right
      exact ⟨r₀, rfl, le_of_not_lt hlt,
        by simp [step, hf, hcg, improves, hlt]⟩

theorem step_result (s : Scenario) (acc : Option Best)
    (heights : Fin 4 → ℚ) :
    step s acc heights = acc ∨
      ∃ v, verifica_distancias_minmax heights s.thicknesses
          s.min_distance_matrix s.max_distance_matrix = true ∧
        cgOf s heights = some v ∧
        s.target_range.1 ≤ v ∧ v ≤ s.target_range.2 ∧
        improves acc v = true ∧
        step s acc heights = some ⟨heights, v⟩ := by
  cases hf : verifica_distancias_minmax heights s.thicknesses
      s.min_distance_matrix s.max_distance_matrix with
  | false => exact Or.inl (step_of_not_verifica hf)
  | true =>
    cases hcg : cgOf s heights with
    | none => exact Or.inl (step_of_cg_none hcg)
    | some v =>
      cases hcond : (decide (s.target_range.1 ≤ v) &&
          decide (v ≤ s.target_range.2) && improves acc v) with
      | false =>
        left
        simp [step, hf, hcg, hcond]
      | true =>
        right
        have hc := hcond
        simp only [Bool.and_eq_true, decide_eq_true_eq] at hc
        exact ⟨v, rfl, rfl, hc.1.1, hc.1.2, hc.2,
          by simp [step, hf, hcg, hcond]⟩

/-! Facts about the fold of the loop body over the candidate list. -/

/-- Every result the fold can report is feasible, has a defined CG and
lies inside the target range, and its heights stem from the candidate
list unless they were already the incumbent. -/
theorem foldl_step_sound (s : Scenario) (l : List (Fin 4 → ℚ)) :
    ∀ (acc : Option Best) (r : Best), l.foldl (step s) acc = some r →
      acc = some r ∨
        (r.heights ∈ l ∧
          verifica_distancias_minmax r.heights s.thicknesses
            s.min_distance_matrix s.max_distance_matrix = true ∧
          cgOf s r.heights = some r.cg ∧
          s.target_range.1 ≤ r.cg ∧ r.cg ≤ s.target_range.2) := by
  induction l with
  | nil =>
    intro acc r h
    exact Or.inl (by simpa using h)
  | cons a l ih =>
    intro acc r h
    rw [List.foldl_cons] at h
    rcases step_result s acc a with hk | ⟨v, hf, hcg, h1, h2, _, hstep⟩
    · rw [hk] at h
      rcases ih acc r h with hacc | hmem
      · exact Or.inl hacc
      · exact Or.inr ⟨List.mem_cons_of_mem _ hmem.1, hmem.2⟩
    · rw [hstep] at h
      rcases ih _ r h with hacc | hmem
      · rcases Option.some.inj hacc with rfl
        exact Or.inr ⟨List.mem_cons_self _ _, hf, hcg, h1, h2⟩
      · exact Or.inr ⟨List.mem_cons_of_mem _ hmem.1, hmem.2⟩

/-- Along the fold the incumbent CG can only go down, and it changes
only when strictly improved. -/
theorem foldl_step_mono (s : Scenario) (l : List (Fin 4 → ℚ)) :
    ∀ (r₀ r : Best), l.foldl (step s) (some r₀) = some r →
      r = r₀ ∨ r.cg < r₀.cg := by
  induction l with
  | nil =>
    intro r₀ r h
    exact Or.inl (Option.some.inj h).symm
  | cons a l ih =>
    intro r₀ r h
    rw [List.foldl_cons] at h
    rcases step_result s (some r₀) a with hk | ⟨v, _, _, _, _, himp, hstep⟩
    · rw [hk] at h
      exact ih r₀ r h
    · rw [hstep] at h
      have hv : v < r₀.cg := by simpa [improves] using himp
      rcases ih _ r h with rfl | hlt
      · exact Or.inr hv
      · exact Or.inr (lt_trans hlt hv)

/-- The reported CG is a lower bound on the CG of every qualifying
candidate of the list. -/
theorem foldl_step_min (s : Scenario) (l : List (Fin 4 → ℚ)) :
    ∀ (acc : Option Best) (r : Best), l.foldl (step s) acc = some r →
      ∀ hs ∈ l, ∀ v : ℚ,
        verifica_distancias_minmax hs s.thicknesses
          s.min_distance_matrix s.max_distance_matrix = true →
        cgOf s hs = some v →
        s.target_range.1 ≤ v → v ≤ s.target_range.2 → r.cg ≤ v := by
  induction l with
  | nil =>
    intro acc r _ hs hmem
    exact absurd hmem (List.not_mem_nil hs)
  | cons a l ih =>
    intro acc r h hs hmem v hf hcg h1 h2
    rw [List.foldl_cons] at h
    rcases List.mem_cons.1 hmem with rfl | hmem'
    · rcases step_qualified s acc hs hf hcg h1 h2 with hstep | ⟨r₀, hacc, hle, hstep⟩
      · rw [hstep] at h
        rcases foldl_step_mono s l _ r h with rfl | hlt
        · exact le_refl v
        · exact le_of_lt hlt
      · rw [hstep, hacc] at h
        rcases foldl_step_mono s l _ r h with rfl | hlt
        · exact hle
        · exact le_trans (le_of_lt hlt) hle
    · exact ih _ r h hs hmem' v hf hcg h1 h2

theorem qualB_eq_true_iff {s : Scenario} {heights : Fin 4 → ℚ} :
    qualB s heights = true ↔
      verifica_distancias_minmax heights s.thicknesses
        s.min_distance_matrix s.max_distance_matrix = true ∧
      ∃ v, cgOf s heights = some v ∧
        s.target_range.1 ≤ v ∧ v ≤ s.target_range.2 := by
  unfold qualB
  cases hcg : cgOf s heights with
  | none => simp [hcg]
  | some v => simp [hcg]

/-- The reported best is the first candidate of the list that
qualifies with the reported CG value, unless it was the incumbent. -/
theorem foldl_step_first (s : Scenario) (l : List (Fin 4 → ℚ)) :
    ∀ (acc : Option Best) (r : Best), l.foldl (step s) acc = some r →
      acc = some r ∨
        ∃ hs, l.find? (fun c => qualB s c &&
            decide (cgOf s c = some r.cg)) = some hs ∧ r.heights = hs := by
  induction l with
  | nil =>
    intro acc r h
    exact Or.inl (by simpa using h)
  | cons a l ih =>
    intro acc r h
    rw [List.foldl_cons] at h
    cases hpa : (qualB s a && decide (cgOf s a = some r.cg)) with
    | true =>
      have hqa := hpa
      simp only [Bool.and_eq_true, decide_eq_true_eq] at hqa
      obtain ⟨hq, hcga⟩ := hqa
      rw [qualB_eq_true_iff] at hq
      obtain ⟨hf, v, hcg', h1, h2⟩ := hq
      have hv : v = r.cg := by
        rw [hcga] at hcg'
        exact (Option.some.inj hcg').symm
      subst hv
      rcases step_qualified s acc a hf hcg' h1 h2 with hstep | ⟨r₀, hacc, hle, hstep⟩
      · rw [hstep] at h
        rcases foldl_step_mono s l _ r h with hr | hlt
        · exact Or.inr ⟨a, List.find?_cons_of_pos _ hpa, by rw [hr]⟩
        · exact absurd hlt (lt_irrefl _)
      · rw [hstep, hacc] at h
        rcases foldl_step_mono s l _ r h with rfl | hlt
        · exact Or.inl hacc
        · exact absurd (lt_of_lt_of_le hlt hle) (lt_irrefl _)
    | false =>
      rw [List.find?_cons_of_neg _ (by simp [hpa])]
      rcases step_result s acc a with hk | ⟨v, hf, hcg, h1, h2, _, hstep⟩
      · rw [hk] at h
        exact ih acc r h
      · rw [hstep] at h
        rcases ih _ r h with hacc | hfind
        · rcases Option.some.inj hacc with rfl
          have : (qualB s a && decide (cgOf s a = some v)) = true := by
            simp only [Bool.and_eq_true, decide_eq_true_eq]
            exact ⟨qualB_eq_true_iff.mpr ⟨hf, v, hcg, h1, h2⟩, hcg⟩
          rw [this] at hpa
          exact absurd hpa (by simp)
        · exact Or.inr hfind

/-- A fold whose every element is skipped leaves the incumbent
unchanged. -/
theorem foldl_step_const (s : Scenario) {l : List (Fin 4 → ℚ)}
    (h : ∀ hs ∈ l, ∀ acc : Option Best, step s acc hs = acc) :
    ∀ acc : Option Best, l.foldl (step s) acc = acc := by
  induction l with
  | nil => intro acc; rfl
  | cons a l ih =>
    intro acc
    rw [List.foldl_cons, h a (List.mem_cons_self _ _) acc]
    exact ih (fun hs hmem acc' => h hs (List.mem_cons_of_mem _ hmem) acc') acc

/-- Every candidate the nested loops produce keeps the two fixed
components at their initial heights. -/
theorem mem_candList_fixed (s : Scenario) {hs : Fin 4 → ℚ}
    (h : hs ∈ candList s) :
    hs 0 = s.thicknesses 0 / 2 ∧
      hs 3 = s.total_height - s.thicknesses 3 / 2 := by
  unfold candList at h
  rw [List.mem_flatMap] at h
  obtain ⟨p, hp, h⟩ := h
  rw [List.mem_flatMap] at h
  obtain ⟨h1, _, h⟩ := h
  rw [List.mem_map] at h
  obtain ⟨h2, _, rfl⟩ := h
  have hp' : p = ((1 : Fin 4), (2 : Fin 4)) ∨ p = ((2 : Fin 4), (1 : Fin 4)) := by
    simpa [perms] using hp
  rcases hp' with rfl | rfl <;>
    exact ⟨by simp [assignHeights, initialHeights],
      by simp [assignHeights, initialHeights]⟩

/-- With a zero total mass the CG of every candidate is undefined. -/
theorem cgOf_eq_none_iff (s : Scenario) (heights : Fin 4 → ℚ) :
    cgOf s heights = none ↔ totalMass s = 0 := by
  unfold cgOf calcula_cg totalMass
  by_cases h : s.masses 0 + s.masses 1 + s.masses 2 + s.masses 3
      + s.solar_panel_mass + s.antenna_mass + s.chassis_mass = 0
  · simp [h]
  · simp [h]

theorem initialHeights_zero (s : Scenario) :
    initialHeights s 0 = s.thicknesses 0 / 2 := by
  unfold initialHeights
  rw [if_pos rfl]

theorem initialHeights_three (s : Scenario) :
    initialHeights s 3 = s.total_height - s.thicknesses 3 / 2 := by
  unfold initialHeights
  rw [if_neg (by decide), if_pos rfl]

/-- Modelled from the spec: the lower bound the specification ascribes
to the second movable component, namely the predecessor height plus the
predecessor half-thickness plus the minimum distance plus the own
half-thickness, truncated.  This definition follows the words of the
spec and is compared against the bound `min_altura_2` of the source. -/
def spec_min_altura_2 (s : Scenario) (p : Fin 4 × Fin 4) (height1 : ℤ) : ℤ :=
  ratTrunc ((height1 : ℚ)
    + s.thicknesses p.1 / 2
    + s.min_distance_matrix p.1 p.2
    + s.thicknesses p.2 / 2)

/-! The claim theorems. -/

/-- Claim C2: whenever the search returns a best configuration, its
heights satisfy the feasibility check, so for every unordered pair of
components the edge gap lies within the [min, max] bound of that pair
(the distance matrices being symmetric, as the builder makes them). -/
theorem claim_C2 (s : Scenario) (r : Best)
    (hmin : ∀ i j, s.min_distance_matrix i j = s.min_distance_matrix j i)
    (hmax : ∀ i j, s.max_distance_matrix i j = s.max_distance_matrix j i)
    (h : search s = some r) :
    verifica_distancias_minmax r.heights s.thicknesses
        s.min_distance_matrix s.max_distance_matrix = true ∧
      ∀ i j : Fin 4, i < j →
        s.min_distance_matrix i j ≤
            dist_entre_bordas r.heights s.thicknesses i j ∧
          dist_entre_bordas r.heights s.thicknesses i j ≤
            s.max_distance_matrix i j := by
  unfold search at h
  rcases foldl_step_sound s (candList s) none r h with hacc | ⟨_, hf, _, _, _⟩
  · exact absurd hacc (by simp)
  · refine ⟨hf, fun i j hij => ?_⟩
    have hok := (verifica_eq_true_iff.mp hf) (i, j) (mem_pairList_of_lt hij)
    have hiff := pairOk_eq_true_iff.mp hok
    rcases lowerHigher_cases r.heights i j with hl | hl
    · rw [hl] at hiff
      exact hiff
    · rw [hl] at hiff
      exact ⟨by rw [hmin i j]; exact hiff.1, by rw [hmax i j]; exact hiff.2⟩

/-- Claim C3: whenever the search returns a best configuration, its CG
lies inside the closed target range, both endpoints included. -/
theorem claim_C3 (s : Scenario) (r : Best) (h : search s = some r) :
    s.target_range.1 ≤ r.cg ∧ r.cg ≤ s.target_range.2 := by
  unfold search at h
  rcases foldl_step_sound s (candList s) none r h with hacc | ⟨_, _, _, h1, h2⟩
  · exact absurd hacc (by simp)
  · exact ⟨h1, h2⟩

/-- Claim C6: for a nonzero total mass the CG is the mass-weighted
average of the four component centre heights and the three external
contribution heights. -/
theorem claim_C6 (heights masses : Fin 4 → ℚ)
    (solar_panel_height solar_panel_mass antenna_height antenna_mass
      chassis_height chassis_mass : ℚ)
    (h : masses 0 + masses 1 + masses 2 + masses 3
      + solar_panel_mass + antenna_mass + chassis_mass ≠ 0) :
    calcula_cg heights masses solar_panel_height solar_panel_mass
        antenna_height antenna_mass chassis_height chassis_mass =
      some ((heights 0 * masses 0 + heights 1 * masses 1
          + heights 2 * masses 2 + heights 3 * masses 3
          + solar_panel_height * solar_panel_mass
          + antenna_height * antenna_mass
          + chassis_height * chassis_mass)
        / (masses 0 + masses 1 + masses 2 + masses 3
          + solar_panel_mass + antenna_mass + chassis_mass)) := by
  simp [calcula_cg, h]

/-- Claim C5, corrected: the lower bound of the second movable
component is the truncation of the predecessor height plus the
predecessor half-thickness plus the minimum distance: the own
half-thickness that the source adds is subtracted again in the same
expression, so it cancels, and the bound sits half a thickness below
the position that exactly satisfies the minimum-gap constraint.  The
upper bound is, as claimed, the truncation of the lower edge of the
topmost fixed component minus the own half-thickness. -/
theorem claim_C5 (s : Scenario) (p : Fin 4 × Fin 4) (height1 : ℤ) (i : Fin 4) :
    min_altura_2 s p height1 =
        ratTrunc ((height1 : ℚ) + s.thicknesses p.1 / 2
          + s.min_distance_matrix p.1 p.2) ∧
      max_altura s i =
        ratTrunc ((s.total_height - s.thicknesses 3)
          - s.thicknesses i / 2) := by
  constructor
  · unfold min_altura_2
    congr 1
    ring
  · unfold max_altura
    rw [initialHeights_three]
    congr 1
    ring

/-- Claim C7: the gap of a pair is computed from the lower/higher
selection by centre height; for non-negative thicknesses it is
negative exactly when the two occupied intervals overlap in more than
a boundary point; a tie of the centres deterministically makes the
first component of the pair the lower one; and the pair passes the
check exactly when the gap lies within the [min, max] bound looked up
at the (lower, higher) index pair. -/
theorem claim_C7 (heights thk : Fin 4 → ℚ) (m M : Fin 4 → Fin 4 → ℚ)
    (i j : Fin 4) (hti : 0 ≤ thk i) (htj : 0 ≤ thk j) :
    (dist_entre_bordas heights thk i j < 0 ↔
        heights i - thk i / 2 < heights j + thk j / 2 ∧
          heights j - thk j / 2 < heights i + thk i / 2) ∧
      (heights i = heights j → lowerHigher heights i j = (i, j)) ∧
      (pairOk heights thk m M i j = true ↔
        m (lowerHigher heights i j).1 (lowerHigher heights i j).2 ≤
            dist_entre_bordas heights thk i j ∧
          dist_entre_bordas heights thk i j ≤
            M (lowerHigher heights i j).1 (lowerHigher heights i j).2) := by
  refine ⟨?_, ?_, pairOk_eq_true_iff⟩
  · by_cases hc : heights i ≤ heights j
    · have hg : dist_entre_bordas heights thk i j =
          (heights j - thk j / 2) - (heights i + thk i / 2) := by
        unfold dist_entre_bordas lowerHigher
        rw [if_pos hc]
      rw [hg]
      constructor
      · intro hlt
        constructor <;> linarith
      · rintro ⟨_, hb⟩
        linarith
    · have hc' : heights j < heights i := lt_of_not_le hc
      have hg : dist_entre_bordas heights thk i j =
          (heights i - thk i / 2) - (heights j + thk j / 2) := by
        unfold dist_entre_bordas lowerHigher
        rw [if_neg hc]
      rw [hg]
      constructor
      · intro hlt
        constructor <;> linarith
      · rintro ⟨ha, _⟩
        linarith
  · intro htie
    unfold lowerHigher
    rw [if_pos (le_of_eq htie)]

/-- Claim C8: whenever the search returns a best configuration, the
two fixed components sit exactly at the heights set at model-build
time: PL at half its thickness, RAD at the total height minus half its
thickness, both equal to their initial (pre-search) values. -/
theorem claim_C8 (s : Scenario) (r : Best) (h : search s = some r) :
    r.heights 0 = s.thicknesses 0 / 2 ∧
      r.heights 3 = s.total_height - s.thicknesses 3 / 2 ∧
      r.heights 0 = initialHeights s 0 ∧
      r.heights 3 = initialHeights s 3 := by
  unfold search at h
  rcases foldl_step_sound s (candList s) none r h with hacc | ⟨hmem, _⟩
  · exact absurd hacc (by simp)
  · obtain ⟨h0, h3⟩ := mem_candList_fixed s hmem
    exact ⟨h0, h3, by rw [h0, initialHeights_zero], by rw [h3, initialHeights_three]⟩

/-- Claim C9: when the two fixed components already violate their own
pairwise distance bound, the feasibility check fails for every
candidate, so the search reports no configuration regardless of the
movable components. -/
theorem claim_C9 (s : Scenario)
    (h : pairOk (initialHeights s) s.thicknesses
      s.min_distance_matrix s.max_distance_matrix 0 3 = false) :
    search s = none := by
  unfold search
  apply foldl_step_const
  intro hs hmem acc
  obtain ⟨h0, h3⟩ := mem_candList_fixed s hmem
  have e0 : hs 0 = initialHeights s 0 := by rw [h0, initialHeights_zero]
  have e3 : hs 3 = initialHeights s 3 := by rw [h3, initialHeights_three]
  have hpe := @pairOk_congr hs (initialHeights s) s.thicknesses
    s.min_distance_matrix s.max_distance_matrix 0 3 e0 e3
  apply step_of_not_verifica
  cases hv : verifica_distancias_minmax hs s.thicknesses
      s.min_distance_matrix s.max_distance_matrix with
  | false => rfl
  | true =>
    exfalso
    have hok := (verifica_eq_true_iff.mp hv) (0, 3)
      (mem_pairList_of_lt (by decide))
    rw [hpe, h] at hok
    exact absurd hok (by simp)

/-- Claim C10: the CG computation is total with `none` standing for
the caught arithmetic failure, which happens exactly on a zero total
mass, and the loop body skips a candidate whose CG is `none`, leaving
the incumbent unchanged and continuing the enumeration. -/
theorem claim_C10 (s : Scenario) (heights : Fin 4 → ℚ) (acc : Option Best) :
    (cgOf s heights = none ↔ totalMass s = 0) ∧
      (cgOf s heights = none → step s acc heights = acc) := by
  exact ⟨cgOf_eq_none_iff s heights, fun h => step_of_cg_none h⟩

/-- Claim C4, corrected: a scenario with zero total mass makes every
CG computation return `none`, every candidate is skipped, and the
search reports the no-configuration outcome; there is no separate
invalid-scenario error result in the code. -/
theorem claim_C4 (s : Scenario) (h : totalMass s = 0) : search s = none := by
  unfold search
  apply foldl_step_const
  intro hs _ acc
  exact step_of_cg_none ((cgOf_eq_none_iff s hs).mpr h)

/-- Claim C1: whenever the search returns a best configuration, no
candidate of the full enumerated search space that passes the
feasibility check and whose CG lies in the target range has a CG
strictly below the reported one, and the reported heights are those of
the first candidate in enumeration order that qualifies with the
reported CG value. -/
theorem claim_C1 (s : Scenario) (r : Best) (h : search s = some r) :
    (∀ hs ∈ candList s, ∀ v : ℚ,
        verifica_distancias_minmax hs s.thicknesses
          s.min_distance_matrix s.max_distance_matrix = true →
        cgOf s hs = some v →
        s.target_range.1 ≤ v → v ≤ s.target_range.2 → r.cg ≤ v) ∧
      ∃ hs, (candList s).find?
          (fun c => qualB s c && decide (cgOf s c = some r.cg)) = some hs ∧
        r.heights = hs := by
  unfold search at h
  refine ⟨fun hs hmem v hf hcg h1 h2 =>
    foldl_step_min s (candList s) none r h hs hmem v hf hcg h1 h2, ?_⟩
  rcases foldl_step_first s (candList s) none r h with hacc | hfind
  · exact absurd hacc (by simp)
  · exact hfind

/-! Concrete scenarios used by the witnesses and counterexamples. -/

/-- A tiny scenario on which the search succeeds: four unit masses,
zero thicknesses, zero enclosure height, all distance bounds zero and
a zero-width target range around the resulting CG. -/
def sW : Scenario where
  masses := fun _ => 1
  thicknesses := fun _ => 0
  solar_panel_mass := 0
  solar_panel_height := 0
  antenna_mass := 0
  antenna_height := 0
  chassis_mass := 0
  chassis_height := 0
  total_height := 0
  target_range := (0, 0)
  min_distance_matrix := fun _ _ => 0
  max_distance_matrix := fun _ _ => 0

/-- The best configuration the search finds on `sW`. -/
def rW : Best := ⟨assignHeights sW (1, 2) 0 0, 0⟩

/-- The scenario `sW` with a minimum distance of 5 between every pair,
which the two fixed components already violate. -/
def sV : Scenario where
  masses := fun _ => 1
  thicknesses := fun _ => 0
  solar_panel_mass := 0
  solar_panel_height := 0
  antenna_mass := 0
  antenna_height := 0
  chassis_mass := 0
  chassis_height := 0
  total_height := 0
  target_range := (0, 0)
  min_distance_matrix := fun _ _ => 5
  max_distance_matrix := fun _ _ => 9999

/-- The scenario `sW` with all masses zero: its total mass is zero. -/
def s0 : Scenario where
  masses := fun _ => 0
  thicknesses := fun _ => 0
  solar_panel_mass := 0
  solar_panel_height := 0
  antenna_mass := 0
  antenna_height := 0
  chassis_mass := 0
  chassis_height := 0
  total_height := 0
  target_range := (0, 0)
  min_distance_matrix := fun _ _ => 0
  max_distance_matrix := fun _ _ => 0

/-- A scenario with distinct thicknesses (EPS 2, OBC 10) exhibiting the
difference between the bound of the source and the bound the spec
describes. -/
def sC : Scenario where
  masses := fun _ => 1
  thicknesses := fun i => if i = 1 then 2 else if i = 2 then 10 else 0
  solar_panel_mass := 0
  solar_panel_height := 0
  antenna_mass := 0
  antenna_height := 0
  chassis_mass := 0
  chassis_height := 0
  total_height := 40
  target_range := (0, 40)
  min_distance_matrix := fun _ _ => 0
  max_distance_matrix := fun _ _ => 9999

/-- Claim C5, counterexample: on `sC`, placing EPS first at height 5,
the lower bound of the source for OBC is 6 while the formula of the
claim gives 11, so the two differ. -/
theorem claim_C5_cex :
    min_altura_2 sC (1, 2) 5 ≠ spec_min_altura_2 sC (1, 2) 5 := by
  with_unfolding_all decide

/-- Claim C4, counterexample: the scenario `s0` has zero total mass,
yet the search returns the no-configuration outcome (its candidate
list is nonempty, every candidate is skipped), not a distinct
invalid-scenario error and not an aborted run. -/
theorem claim_C4_cex : totalMass s0 = 0 ∧ search s0 = none := by
  constructor
  · with_unfolding_all rfl
  · with_unfolding_all rfl

/-! Witnesses: each one applies its claim theorem at a concrete
scenario, discharging the hypotheses there. -/

theorem claim_C1_witness :
    (∀ hs ∈ candList sW, ∀ v : ℚ,
        verifica_distancias_minmax hs sW.thicknesses
          sW.min_distance_matrix sW.max_distance_matrix = true →
        cgOf sW hs = some v →
        sW.target_range.1 ≤ v → v ≤ sW.target_range.2 → rW.cg ≤ v) ∧
      ∃ hs, (candList sW).find?
          (fun c => qualB sW c && decide (cgOf sW c = some rW.cg)) = some hs ∧
        rW.heights = hs :=
  claim_C1 sW rW (by with_unfolding_all rfl)

theorem claim_C2_witness :
    verifica_distancias_minmax rW.heights sW.thicknesses
        sW.min_distance_matrix sW.max_distance_matrix = true ∧
      ∀ i j : Fin 4, i < j →
        sW.min_distance_matrix i j ≤
            dist_entre_bordas rW.heights sW.thicknesses i j ∧
          dist_entre_bordas rW.heights sW.thicknesses i j ≤
            sW.max_distance_matrix i j :=
  claim_C2 sW rW (fun _ _ => rfl) (fun _ _ => rfl) (by with_unfolding_all rfl)

theorem claim_C3_witness :
    sW.target_range.1 ≤ rW.cg ∧ rW.cg ≤ sW.target_range.2 :=
  claim_C3 sW rW (by with_unfolding_all rfl)

theorem claim_C4_witness : search s0 = none :=
  claim_C4 s0 (by with_unfolding_all rfl)

theorem claim_C6_witness :
    calcula_cg (fun _ => 1) (fun _ => 1) 0 0 0 0 0 0 =
      some ((1 * 1 + 1 * 1 + 1 * 1 + 1 * 1 + 0 * 0 + 0 * 0 + 0 * 0)
        / (1 + 1 + 1 + 1 + 0 + 0 + 0)) :=
  claim_C6 (fun _ => 1) (fun _ => 1) 0 0 0 0 0 0 (by norm_num)

/-- Heights used by the witness of claim C7. -/
def hW : Fin 4 → ℚ := fun _ => 0

/-- Thicknesses used by the witness of claim C7. -/
def tW : Fin 4 → ℚ := fun _ => 2

/-- Minimum distance matrix used by the witness of claim C7. -/
def mW : Fin 4 → Fin 4 → ℚ := fun _ _ => 0

/-- Maximum distance matrix used by the witness of claim C7. -/
def MW : Fin 4 → Fin 4 → ℚ := fun _ _ => 100

theorem claim_C7_witness :
    (dist_entre_bordas hW tW 0 1 < 0 ↔
        hW 0 - tW 0 / 2 < hW 1 + tW 1 / 2 ∧
          hW 1 - tW 1 / 2 < hW 0 + tW 0 / 2) ∧
      (hW 0 = hW 1 → lowerHigher hW 0 1 = (0, 1)) ∧
      (pairOk hW tW mW MW 0 1 = true ↔
        mW (lowerHigher hW 0 1).1 (lowerHigher hW 0 1).2 ≤
            dist_entre_bordas hW tW 0 1 ∧
          dist_entre_bordas hW tW 0 1 ≤
            MW (lowerHigher hW 0 1).1 (lowerHigher hW 0 1).2) :=
  claim_C7 hW tW mW MW 0 1 (by norm_num [tW]) (by norm_num [tW])

theorem claim_C8_witness :
    rW.heights 0 = sW.thicknesses 0 / 2 ∧
      rW.heights 3 = sW.total_height - sW.thicknesses 3 / 2 ∧
      rW.heights 0 = initialHeights sW 0 ∧
      rW.heights 3 = initialHeights sW 3 :=
  claim_C8 sW rW (by with_unfolding_all rfl)

theorem claim_C9_witness : search sV = none :=
  claim_C9 sV (by with_unfolding_all rfl)

theorem claim_C10_witness :
    (cgOf s0 (fun _ => 0) = none ↔ totalMass s0 = 0) ∧
      (cgOf s0 (fun _ => 0) = none → step s0 none (fun _ => 0) = none) :=
  claim_C10 s0 (fun _ => 0) none

end Satelite


